import Mathlib

/-!
Verification of the Comprehensive Codebase Scanner
(src/tools/analyzers/comprehensive_scanner.py).

The Python source is shallowly embedded: dictionaries become association
lists, Python floats become exact rationals, Python strings become Lean
strings manipulated through executable char-list helpers, and every
embedded function is an executable Lean definition transcribed from the
source code.  Definitions whose names begin with `spec` follow the words of
the natural-language specification instead and exist only to be compared
with the code.
-/

/-- Python `max(a, b)` on rationals (`b` wins only when strictly larger,
as in CPython). -/
def pyMax (a b : ℚ) : ℚ := if a < b then b else a

/-- Python `min(a, b)` on rationals (`b` wins only when strictly smaller,
as in CPython). -/
def pyMin (a b : ℚ) : ℚ := if b < a then b else a

theorem pyMax_eq_max (a b : ℚ) : pyMax a b = max a b := by
  unfold pyMax
  by_cases h : a < b
  · rw [if_pos h, max_eq_right h.le]
  · rw [if_neg h, max_eq_left (le_of_not_lt h)]

theorem pyMin_eq_min (a b : ℚ) : pyMin a b = min a b := by
  unfold pyMin
  by_cases h : b < a
  · rw [if_pos h, min_eq_right h.le]
  · rw [if_neg h, min_eq_left (le_of_not_lt h)]

/-- Python round-half-to-even (the behaviour of the builtin `round`) applied
to a rational, returning an integer. -/
def roundHalfEven (q : ℚ) : ℤ :=
  if q - ⌊q⌋ < 1/2 then ⌊q⌋
  else if (1:ℚ)/2 < q - ⌊q⌋ then ⌊q⌋ + 1
  else if ⌊q⌋ % 2 = 0 then ⌊q⌋ else ⌊q⌋ + 1

/-- Python `round(x, 1)`: round to one decimal digit, half to even. -/
def pyRound1 (q : ℚ) : ℚ := (roundHalfEven (q * 10) : ℚ) / 10

/-- `pyRound1` is the identity on integral values (all score values needed
by the concrete counterexamples are integral). -/
theorem pyRound1_natCast (n : ℕ) : pyRound1 (n : ℚ) = n := by
  unfold pyRound1 roundHalfEven
  have h10 : ((n : ℚ) * 10) = ((10 * n : ℕ) : ℚ) := by push_cast; ring
  rw [h10, Int.floor_natCast]
  have hz : ((10 * n : ℕ) : ℚ) - (((10 * n : ℕ) : ℤ) : ℚ) = 0 := by push_cast; ring
  rw [hz, if_pos (by norm_num)]
  push_cast
  ring

/-- An issue record as produced by the analyzers (`{'type': ..., 'severity':
..., 'category': ..., 'line': ...}` dictionaries in the source); only the
fields the scoring claims need are kept. -/
structure Issue where
  severity : String
  category : String
  line : ℕ
deriving DecidableEq, Repr

/-- The dictionary returned by `_calculate_complexity`. -/
structure ComplexityMetrics where
  cyclomaticComplexity : ℕ
  cognitiveComplexity : ℕ
  nestingDepth : ℕ
deriving DecidableEq, Repr

/-- The `FileAnalysis` dataclass of the source (fields `duplicates` and
`test_coverage` are never read by the functions under verification and are
omitted). -/
structure FileAnalysis where
  filepath : String
  language : String
  sizeBytes : ℕ
  linesOfCode : ℕ
  securityIssues : List Issue
  performanceIssues : List Issue
  qualityIssues : List Issue
  complexityMetrics : ComplexityMetrics
  dependencies : List String
  documentationScore : ℚ
deriving DecidableEq, Repr

/-- Total number of security issues over all file analyses
(`sum(len(analysis.security_issues) for ...)`). -/
def totalSecurityIssues (l : List FileAnalysis) : ℕ :=
  (l.map (fun a => a.securityIssues.length)).sum

/-- Total number of performance issues over all file analyses. -/
def totalPerformanceIssues (l : List FileAnalysis) : ℕ :=
  (l.map (fun a => a.performanceIssues.length)).sum

/-- Total number of quality issues over all file analyses. -/
def totalQualityIssues (l : List FileAnalysis) : ℕ :=
  (l.map (fun a => a.qualityIssues.length)).sum

/-- Sum of the per-file documentation scores. -/
def documentationSum (l : List FileAnalysis) : ℚ :=
  (l.map (fun a => a.documentationScore)).sum

/-- Sum of the per-file cyclomatic complexities
(`analysis.complexity_metrics.get('cyclomatic_complexity', 0)`). -/
def cyclomaticSum (l : List FileAnalysis) : ℕ :=
  (l.map (fun a => a.complexityMetrics.cyclomaticComplexity)).sum

/-- Embedding of `_calculate_overall_scores` (comprehensive_scanner.py,
lines 919-950).  The Python dictionary `file_analyses` is passed as the list
of its values (only `len` and the values are used by the source); the
returned dictionary becomes an association list in insertion order.  Python
floats are modelled as exact rationals and `round(x, 1)` as `pyRound1`. -/
def calculateOverallScores : List FileAnalysis → List (String × ℚ)
  | [] => []
  | analyses =>
    let n : ℚ := analyses.length
    let securityScore : ℚ := pyMax 1 (10 - (totalSecurityIssues analyses : ℚ) / n * 2)
    let performanceScore : ℚ := pyMax 1 (10 - (totalPerformanceIssues analyses : ℚ) / n * (3/2))
    let qualityScore : ℚ := pyMax 1 (10 - (totalQualityIssues analyses : ℚ) / n)
    let docScore : ℚ := documentationSum analyses / n * 10
    let avgComplexity : ℚ := (cyclomaticSum analyses : ℚ) / n
    let complexityScore : ℚ := pyMax 1 (10 - avgComplexity / 5)
    [("security", pyRound1 securityScore),
     ("performance", pyRound1 performanceScore),
     ("maintainability", pyRound1 qualityScore),
     ("documentation", pyRound1 docScore),
     ("complexity", pyRound1 complexityScore),
     ("overall", pyRound1 ((securityScore + performanceScore + qualityScore
        + docScore + complexityScore) / 5))]

/-- Follows the words of the specification, section 4.8: severity weights
Critical=2.5, High=1.5, Medium=0.5, Low=0.2 (severity tags as the code
writes them, lower-case). -/
def specSecuritySeverityWeight (s : String) : ℚ :=
  if s = "critical" then 5/2
  else if s = "high" then 3/2
  else if s = "medium" then 1/2
  else if s = "low" then 1/5
  else 0

/-- Follows the words of the specification, section 4.8:
`security_score = max(0, 10 - weighted_security_issue_sum / file_count)`. -/
def specSecurityScore (l : List FileAnalysis) : ℚ :=
  pyMax 0 (10 -
    (l.map (fun a => (a.securityIssues.map
      (fun i => specSecuritySeverityWeight i.severity)).sum)).sum / l.length)

/-- Follows the words of the specification, section 4.8:
`maintainability_score = max(0, 10 - 2 * architecture_issue_count -
1 * testing_gap_count)`. -/
def specMaintainabilityScore (archCount gapCount : ℕ) : ℚ :=
  pyMax 0 (10 - 2 * (archCount : ℚ) - (gapCount : ℚ))

/-- A file analysis holding exactly one critical security issue and nothing
else. -/
def sampleCriticalFA : FileAnalysis :=
  { filepath := "app.py"
    language := "python"
    sizeBytes := 30
    linesOfCode := 1
    securityIssues := [{ severity := "critical", category := "Hardcoded Secrets", line := 1 }]
    performanceIssues := []
    qualityIssues := []
    complexityMetrics := { cyclomaticComplexity := 1, cognitiveComplexity := 0, nestingDepth := 0 }
    dependencies := []
    documentationScore := 0 }

/-- A file analysis with no issues at all. -/
def cleanFA : FileAnalysis :=
  { filepath := "lib.py"
    language := "python"
    sizeBytes := 10
    linesOfCode := 1
    securityIssues := []
    performanceIssues := []
    qualityIssues := []
    complexityMetrics := { cyclomaticComplexity := 0, cognitiveComplexity := 0, nestingDepth := 0 }
    dependencies := []
    documentationScore := 0 }

/-- C1 counterexample: on a single file carrying one critical security
issue the code returns security score 8 (unweighted count, factor 2, floor
1), while the claimed weighted formula gives max(0, 10 - 2.5/1) = 7.5. -/
theorem security_weighting_counterexample :
    (calculateOverallScores [sampleCriticalFA]).lookup "security" = some 8 ∧
    specSecurityScore [sampleCriticalFA] = 15/2 ∧ ((8 : ℚ) ≠ 15/2) := by
  refine ⟨?_, ?_, by norm_num⟩
  · have h : (calculateOverallScores [sampleCriticalFA]).lookup "security"
        = some (pyRound1 (pyMax 1 (10 -
            (totalSecurityIssues [sampleCriticalFA] : ℚ)
              / (List.length [sampleCriticalFA] : ℚ) * 2))) := rfl
    rw [h]
    have h1 : totalSecurityIssues [sampleCriticalFA] = 1 := rfl
    have h2 : List.length [sampleCriticalFA] = 1 := rfl
    rw [h1, h2, pyMax_eq_max]
    have h3 : (10 : ℚ) - ((1 : ℕ) : ℚ) / ((1 : ℕ) : ℚ) * 2 = ((8 : ℕ) : ℚ) := by
      push_cast; norm_num
    rw [h3]
    have h4 : max (1 : ℚ) ((8 : ℕ) : ℚ) = ((8 : ℕ) : ℚ) := by
      rw [max_eq_right]; push_cast; norm_num
    rw [h4, pyRound1_natCast]
    norm_num
  · unfold specSecurityScore specSecuritySeverityWeight sampleCriticalFA
    rw [pyMax_eq_max]
    norm_num

/-- C1 (amended): for every non-empty list of file analyses the aggregated
security score equals `round1(max(1, 10 - security_issue_count / file_count
* 2))` - issues are counted without severity weighting, the floor is 1, not
0, and the result is rounded to one decimal. -/
theorem security_score_code_formula (l : List FileAnalysis) (h : l ≠ []) :
    (calculateOverallScores l).lookup "security"
      = some (pyRound1 (pyMax 1 (10 - (totalSecurityIssues l : ℚ) / (l.length : ℚ) * 2))) := by
  cases l with
  | nil => exact absurd rfl h
  | cons a t => rfl

/-- Witness for `security_score_code_formula` at the one-file input. -/
theorem security_score_code_formula_witness :
    (calculateOverallScores [sampleCriticalFA]).lookup "security"
      = some (pyRound1 (pyMax 1 (10 -
          (totalSecurityIssues [sampleCriticalFA] : ℚ)
            / (List.length [sampleCriticalFA] : ℚ) * 2))) :=
  security_score_code_formula [sampleCriticalFA] (by decide)

/-- C2 counterexample: on the input consisting of one clean file analysis
together with one architecture issue and one testing gap, the claimed
formula gives max(0, 10 - 2*1 - 1*1) = 7, but the code returns
maintainability 10 - the aggregation reads only the per-file quality
issues and ignores architecture issues and testing gaps entirely (they are
not even parameters of `_calculate_overall_scores`). -/
theorem maintainability_formula_counterexample :
    (calculateOverallScores [cleanFA]).lookup "maintainability" = some 10 ∧
    specMaintainabilityScore 1 1 = 7 ∧ ((10 : ℚ) ≠ 7) := by
  refine ⟨?_, ?_, by norm_num⟩
  · have h : (calculateOverallScores [cleanFA]).lookup "maintainability"
        = some (pyRound1 (pyMax 1 (10 -
            (totalQualityIssues [cleanFA] : ℚ) / (List.length [cleanFA] : ℚ)))) := rfl
    rw [h]
    have h1 : totalQualityIssues [cleanFA] = 0 := rfl
    have h2 : List.length [cleanFA] = 1 := rfl
    rw [h1, h2, pyMax_eq_max]
    have h3 : (10 : ℚ) - ((0 : ℕ) : ℚ) / ((1 : ℕ) : ℚ) = ((10 : ℕ) : ℚ) := by
      push_cast; norm_num
    rw [h3]
    have h4 : max (1 : ℚ) ((10 : ℕ) : ℚ) = ((10 : ℕ) : ℚ) := by
      rw [max_eq_right]; push_cast; norm_num
    rw [h4, pyRound1_natCast]
    norm_num
  · unfold specMaintainabilityScore
    rw [pyMax_eq_max]
    norm_num

/-- C2 (amended): for every non-empty list of file analyses the
maintainability score equals `round1(max(1, 10 - quality_issue_count /
file_count))`, a function of the per-file quality issues alone; the counts
of architecture issues and testing gaps do not enter it. -/
theorem maintainability_score_code_formula (l : List FileAnalysis) (h : l ≠ []) :
    (calculateOverallScores l).lookup "maintainability"
      = some (pyRound1 (pyMax 1 (10 - (totalQualityIssues l : ℚ) / (l.length : ℚ)))) := by
  cases l with
  | nil => exact absurd rfl h
  | cons a t => rfl

/-- Witness for `maintainability_score_code_formula` at the one-file input. -/
theorem maintainability_score_code_formula_witness :
    (calculateOverallScores [cleanFA]).lookup "maintainability"
      = some (pyRound1 (pyMax 1 (10 -
          (totalQualityIssues [cleanFA] : ℚ) / (List.length [cleanFA] : ℚ)))) :=
  maintainability_score_code_formula [cleanFA] (by decide)

/-- C9: on an empty mapping of file analyses the aggregation returns the
empty score map (the `if not file_analyses: return {}` branch); being a
total function into lists, it neither raises nor divides by zero. -/
theorem overall_scores_empty : calculateOverallScores [] = [] := rfl

/-- Python whitespace test (the ASCII part of `str.isspace`), used by
`strip()` and by the `\s` class of the comment-prefix regexes. -/
def isPySpace (c : Char) : Bool :=
  c == ' ' || c == '\t' || c == '\n' || c == '\r' || c == '\x0b' || c == '\x0c'

/-- Drop leading whitespace from a char list (Python `lstrip()`, also the
effect of a leading `\s*` in an anchored regex). -/
def dropWsLead : List Char → List Char
  | [] => []
  | c :: t => if isPySpace c then dropWsLead t else c :: t

/-- Python `strip()`: drop leading and trailing whitespace. -/
def pyStrip (l : List Char) : List Char :=
  dropWsLead ((dropWsLead l.reverse).reverse)

/-- Python `content.split('\n')` on char lists. -/
def splitLines : List Char → List (List Char)
  | [] => [[]]
  | c :: t =>
    if c = '\n' then [] :: splitLines t
    else
      match splitLines t with
      | [] => [[c]]
      | l :: ls => (c :: l) :: ls

/-- The `comment_patterns` table of `_calculate_documentation_score`: each
regex there is of the form `^\s*P`, so it is kept as the plain prefix `P`
to be matched after stripping leading whitespace (languages absent from
the table get no patterns, exactly as the `if language in comment_patterns`
guard does). -/
def commentPatternTable (language : String) : List String :=
  (([("python", ["#", "\"\"\"", "\x27\x27\x27"]),
     ("javascript", ["//", "/*", "*"]),
     ("java", ["//", "/*", "*"]),
     ("csharp", ["//", "/*", "*"]),
     ("cpp", ["//", "/*", "*"]),
     ("go", ["//"]),
     ("rust", ["//", "/*"]),
     ("php", ["//", "/*", "*"]),
     ("ruby", ["#"]),
     ("swift", ["//", "/*"])] : List (String × List String)).lookup language).getD []

/-- A line counts as documentation when one of the language's comment
prefixes matches after leading whitespace (`re.match(r'^\s*P', line)`). -/
def isDocLine (language : String) (line : List Char) : Bool :=
  (commentPatternTable language).any (fun p => p.data.isPrefixOf (dropWsLead line))

/-- `len([line for line in lines if line.strip()])`. -/
def totalNonBlankLines (content : String) : ℕ :=
  ((splitLines content.data).filter (fun l => !(pyStrip l).isEmpty)).length

/-- Number of lines matched by the language's comment patterns. -/
def docLineCount (content language : String) : ℕ :=
  ((splitLines content.data).filter (fun l => isDocLine language l)).length

/-- Embedding of `_calculate_documentation_score` (comprehensive_scanner.py,
lines 703-731): `0.0` when every line is blank, otherwise
`min(1.0, doc_lines / total_lines)`. -/
def calculateDocumentationScore (content language : String) : ℚ :=
  if totalNonBlankLines content = 0 then 0
  else pyMin 1 ((docLineCount content language : ℚ) / (totalNonBlankLines content : ℚ))

/-- Follows the words of the specification, section 4.3: documentation
score `min(1.0, doc_line_ratio * 2.5) * 10`. -/
def specDocumentationScore (content language : String) : ℚ :=
  if totalNonBlankLines content = 0 then 0
  else pyMin 1 ((docLineCount content language : ℚ)
    / (totalNonBlankLines content : ℚ) * (5/2)) * 10

/-- C3 counterexample: a two-line Python file whose first line is a comment
has doc-line fraction 1/2; the code returns min(1, 1/2) = 1/2 while the
claimed formula min(1, 1/2 * 2.5) * 10 gives 10. -/
theorem documentation_score_counterexample :
    calculateDocumentationScore "# c\nx = 1" "python" = 1/2 ∧
    specDocumentationScore "# c\nx = 1" "python" = 10 ∧ ((1 : ℚ)/2 ≠ 10) := by
  have h1 : docLineCount "# c\nx = 1" "python" = 1 := by decide
  have h2 : totalNonBlankLines "# c\nx = 1" = 2 := by decide
  refine ⟨?_, ?_, by norm_num⟩
  · unfold calculateDocumentationScore
    rw [if_neg (by decide), h1, h2, pyMin_eq_min]
    rw [min_eq_right (by push_cast; norm_num)]
    push_cast; norm_num
  · unfold specDocumentationScore
    rw [if_neg (by decide), h1, h2, pyMin_eq_min]
    have h3 : ((1 : ℕ) : ℚ) / ((2 : ℕ) : ℚ) * (5/2) = 5/4 := by push_cast; norm_num
    rw [h3, min_eq_left (by norm_num)]
    norm_num

/-- C3 (amended): the per-file documentation score is
`min(1.0, doc_line_ratio)` - the factor 2.5 and the scaling by 10 are
absent - and therefore lies in [0, 1] (a fortiori in [0, 10]). -/
theorem documentation_score_formula (content language : String) :
    0 ≤ calculateDocumentationScore content language ∧
    calculateDocumentationScore content language ≤ 1 ∧
    (0 < totalNonBlankLines content →
      calculateDocumentationScore content language
        = pyMin 1 ((docLineCount content language : ℚ)
            / (totalNonBlankLines content : ℚ))) := by
  unfold calculateDocumentationScore
  by_cases h : totalNonBlankLines content = 0
  · rw [if_pos h]
    exact ⟨le_rfl, by norm_num, fun hc => absurd h hc.ne'⟩
  · rw [if_neg h, pyMin_eq_min]
    refine ⟨le_min (by norm_num) ?_, min_le_left _ _, fun _ => rfl⟩
    exact div_nonneg (Nat.cast_nonneg _) (Nat.cast_nonneg _)

/-- Witness for `documentation_score_formula` at the concrete two-line
Python file. -/
theorem documentation_score_formula_witness :
    calculateDocumentationScore "# c\nx = 1" "python"
      = pyMin 1 ((docLineCount "# c\nx = 1" "python" : ℚ)
          / (totalNonBlankLines "# c\nx = 1" : ℚ)) :=
  (documentation_score_formula "# c\nx = 1" "python").2.2 (by decide)

/-- Generic single-character splitter (Python `str.split(sep)` for a
one-character separator). -/
def splitOnChar (sep : Char) : List Char → List (List Char)
  | [] => [[]]
  | c :: t =>
    if c = sep then [] :: splitOnChar sep t
    else
      match splitOnChar sep t with
      | [] => [[c]]
      | l :: ls => (c :: l) :: ls

/-- Boolean substring test on char lists (Python `needle in haystack`). -/
def containsSub (needle : List Char) : List Char → Bool
  | [] => needle.isEmpty
  | c :: t => needle.isPrefixOf (c :: t) || containsSub needle t

/-- Non-overlapping substring count, fuel-bounded (Python `str.count` for a
non-empty needle; every needle in the language table is non-empty). -/
def subCountAux (needle : List Char) : ℕ → List Char → ℕ
  | 0, _ => 0
  | _, [] => 0
  | fuel + 1, c :: t =>
    if needle.isPrefixOf (c :: t) then 1 + subCountAux needle fuel ((c :: t).drop needle.length)
    else subCountAux needle fuel t

/-- Python `haystack.count(needle)` for non-empty needles. -/
def subCount (needle hay : List Char) : ℕ := subCountAux needle hay.length hay

/-- Lexicographic code-point comparison on char lists (Python `<` on
strings). -/
def charListLt : List Char → List Char → Bool
  | [], [] => false
  | [], _ :: _ => true
  | _ :: _, [] => false
  | a :: as, b :: bs => if a < b then true else if b < a then false else charListLt as bs

/-- Lowercasing a char list (Python `str.lower`, ASCII part). -/
def toLowerChars (l : List Char) : List Char := l.map Char.toLower

/-- `pathlib.Path(p).name`: the final path component. -/
def pathName (p : String) : List Char :=
  (splitOnChar '/' p.data).getLastD []

/-- `pathlib.Path(p).suffix`: the extension from the last dot of the name,
provided that dot is neither the first nor the last character. -/
def pathSuffixChars (p : String) : List Char :=
  let name := pathName p
  match ((name.enum).filter (fun e => e.2 == '.')).getLast? with
  | some (i, _) => if 0 < i ∧ i < name.length - 1 then name.drop i else []
  | none => []

/-- `pathlib.Path(p).stem`: the final component without its suffix. -/
def pathStem (p : String) : List Char :=
  let name := pathName p
  name.take (name.length - (pathSuffixChars p).length)

/-- One entry of the `SUPPORTED_LANGUAGES` class attribute.  The
`complexity_keywords` field is omitted: no verified claim reads it. -/
structure LangConfig where
  name : String
  extensions : List String
  patterns : List String
deriving DecidableEq, Repr

/-- The `SUPPORTED_LANGUAGES` table, in dictionary insertion order. -/
def SUPPORTED_LANGUAGES : List LangConfig :=
  [⟨"python", [".py", ".pyx", ".pyi"], ["def ", "class ", "import ", "from "]⟩,
   ⟨"javascript", [".js", ".jsx", ".ts", ".tsx", ".mjs"],
     ["function ", "const ", "let ", "var ", "class ", "import ", "export"]⟩,
   ⟨"java", [".java"], ["public class", "private", "public", "static", "import"]⟩,
   ⟨"csharp", [".cs"], ["using ", "namespace", "public class", "private", "public"]⟩,
   ⟨"cpp", [".cpp", ".cc", ".cxx", ".c", ".h", ".hpp"],
     ["#include", "class ", "struct ", "namespace"]⟩,
   ⟨"go", [".go"], ["package ", "import ", "func ", "type ", "var "]⟩,
   ⟨"rust", [".rs"], ["fn ", "struct ", "impl ", "use ", "mod "]⟩,
   ⟨"php", [".php"], ["<?php", "function ", "class ", "$"]⟩,
   ⟨"ruby", [".rb"], ["def ", "class ", "module ", "require"]⟩,
   ⟨"swift", [".swift"], ["func ", "class ", "struct ", "import"]⟩]

/-- Union of all supported extensions (`all_extensions` in
`_collect_all_code_files`; a list models the set, only membership is
used). -/
def allExtensions : List String :=
  (SUPPORTED_LANGUAGES.map (fun l => l.extensions)).flatten

/-- The `exclude_patterns` set of `_collect_all_code_files`; each entry is
tested as a plain substring of the whole path string. -/
def excludePatterns : List String :=
  [".git", "__pycache__", "node_modules", ".venv", "venv",
   "build", "dist", ".gradle", "target", "bin", "obj",
   ".vs", ".vscode", ".idea", "*.min.js", "*.bundle.js"]

/-- One entry yielded by `root.rglob('*')`. -/
structure FSEntry where
  path : String
  isFile : Bool
deriving DecidableEq, Repr

/-- The observable file-system input of `_collect_all_code_files`: whether
the root exists as a directory, and the entries below it. -/
structure FileSystem where
  rootIsDir : Bool
  entries : List FSEntry
deriving DecidableEq, Repr

/-- `root.rglob('*')` in pathlib yields nothing when the root is missing or
is not a directory (the glob selector returns an empty iterator after its
initial `is_dir` check); it never raises for such roots. -/
def rglobAll (fs : FileSystem) : List FSEntry :=
  if fs.rootIsDir then fs.entries else []

/-- Insertion step of the string sort used for `sorted(code_files)`. -/
def insertSortedStr (s : String) : List String → List String
  | [] => [s]
  | x :: xs => if charListLt x.data s.data then x :: insertSortedStr s xs else s :: x :: xs

/-- `sorted(code_files)`: ascending lexicographic order. -/
def sortStrings (l : List String) : List String := l.foldr insertSortedStr []

/-- Embedding of `_collect_all_code_files` (comprehensive_scanner.py, lines
159-185).  The result type is `Except` because a Python function may raise,
but the body contains no raise and `rglob` absorbs a missing root, so every
input produces `Except.ok`. -/
def collectAllCodeFiles (fs : FileSystem) : Except String (List String) :=
  Except.ok (sortStrings
    (((rglobAll fs).filter (fun e =>
        e.isFile
        && allExtensions.contains (String.mk (toLowerChars (pathSuffixChars e.path)))
        && !(excludePatterns.any (fun ex => containsSub ex.data e.path.data)))).map
      (fun e => e.path)))

/-- A file system whose root path does not exist as a directory. -/
def missingRootFS : FileSystem :=
  { rootIsDir := false, entries := [{ path := "proj/x.py", isFile := true }] }

/-- C4 counterexample: with a missing (or non-directory) root the
collection function returns the empty file list `ok []`; it does not fail
with any error, contrary to the claimed `NotFoundError`. -/
theorem collect_missing_root_counterexample :
    collectAllCodeFiles missingRootFS = Except.ok [] ∧
    ∀ msg : String, collectAllCodeFiles missingRootFS ≠ Except.error msg := by
  refine ⟨rfl, fun msg h => ?_⟩
  rw [show collectAllCodeFiles missingRootFS = Except.ok [] from rfl] at h
  exact Except.noConfusion h

/-- C4 (amended): for every root that does not exist or is not a directory,
file collection returns the empty list and never surfaces an error - the
source has no existence check and `rglob` yields nothing for such roots. -/
theorem collect_missing_root_returns_empty (fs : FileSystem)
    (h : fs.rootIsDir = false) : collectAllCodeFiles fs = Except.ok [] := by
  simp [collectAllCodeFiles, rglobAll, h, sortStrings]

/-- Witness for `collect_missing_root_returns_empty` at a file system that
does contain entries below its (missing) root. -/
theorem collect_missing_root_returns_empty_witness :
    collectAllCodeFiles missingRootFS = Except.ok [] :=
  collect_missing_root_returns_empty missingRootFS rfl

/-- Keyword score of one language (`score += content.count(pattern)`). -/
def patternScore (l : LangConfig) (content : String) : ℕ :=
  (l.patterns.map (fun p => subCount p.data content.data)).sum

/-- Python `max(pattern_scores, key=pattern_scores.get)`: first key of
maximal score, `none` on an empty dictionary. -/
def maxKeyFirst : List (String × ℕ) → Option String
  | [] => none
  | x :: xs => some ((xs.foldl (fun best y => if best.2 < y.2 then y else best) x).1)

/-- Embedding of `_detect_file_language` (comprehensive_scanner.py, lines
272-293): extension lookup first, then the keyword-score maximum, and
`unknown` only if the (never actually empty) score dictionary is empty. -/
def detectFileLanguage (path content : String) : String :=
  match SUPPORTED_LANGUAGES.find? (fun l =>
      l.extensions.contains (String.mk (toLowerChars (pathSuffixChars path)))) with
  | some l => l.name
  | none =>
    match maxKeyFirst (SUPPORTED_LANGUAGES.map (fun l => (l.name, patternScore l content))) with
    | some lang => lang
    | none => "unknown"

/-- C7 counterexample: a path with unknown extension and content containing
no signature keyword is classified as `python`, not `unknown`: the score
dictionary is never empty, and Python `max` over an all-zero dictionary
returns its first key. -/
theorem detect_language_counterexample :
    detectFileLanguage "file.xyz" "" = "python" ∧ "python" ≠ "unknown" :=
  ⟨by decide, by decide⟩

/-- Sum of keyword counts is zero when every count is zero. -/
theorem patternScore_eq_zero (l : LangConfig) (content : String)
    (h : ∀ p ∈ l.patterns, subCount p.data content.data = 0) :
    patternScore l content = 0 := by
  unfold patternScore
  apply List.sum_eq_zero
  intro x hx
  obtain ⟨p, hp, rfl⟩ := List.mem_map.mp hx
  exact h p hp

/-- C7 (amended): whenever the (lower-cased) extension matches no
registered language and the content contains zero occurrences of every
registered signature keyword, `_detect_file_language` returns `python`
(the first registered language), never `unknown`; the `unknown` branch is
unreachable because the score dictionary always has ten entries. -/
theorem detect_language_no_match_returns_python (path content : String)
    (h1 : ∀ l ∈ SUPPORTED_LANGUAGES,
        l.extensions.contains (String.mk (toLowerChars (pathSuffixChars path))) = false)
    (h2 : ∀ l ∈ SUPPORTED_LANGUAGES, ∀ p ∈ l.patterns,
        subCount p.data content.data = 0) :
    detectFileLanguage path content = "python" := by
  unfold detectFileLanguage
  have hf : SUPPORTED_LANGUAGES.find? (fun l =>
      l.extensions.contains (String.mk (toLowerChars (pathSuffixChars path)))) = none := by
    rw [List.find?_eq_none]
    intro x hx
    simp only [h1 x hx]
    decide
  rw [hf]
  have hs : SUPPORTED_LANGUAGES.map (fun l => (l.name, patternScore l content))
      = SUPPORTED_LANGUAGES.map (fun l => (l.name, 0)) := by
    apply List.map_congr_left
    intro l hl
    rw [patternScore_eq_zero l content (h2 l hl)]
  rw [hs]
  decide

/-- Witness for `detect_language_no_match_returns_python` at a concrete
extension-less-match input. -/
theorem detect_language_no_match_returns_python_witness :
    detectFileLanguage "data.xyz" "" = "python" :=
  detect_language_no_match_returns_python "data.xyz" "" (by decide) (by decide)

/-- A testing gap as emitted by `_analyze_testing_coverage`
(the dictionaries become a tagged type; the counts of the low-coverage
entry are its `test_files` and `source_files` fields). -/
inductive TestingGap
  | lowCoverage (severity : String) (testFiles sourceFiles : ℕ)
  | missingTests (severity : String) (file : String)
deriving DecidableEq, Repr

/-- The test-indicator substrings of `_analyze_testing_coverage`. -/
def testIndicators : List String := ["test", "spec", "__test__"]

/-- `any(test_indicator in file_path.lower() for ...)`. -/
def isTestFile (p : String) : Bool :=
  testIndicators.any (fun t => containsSub t.data (toLowerChars p.data))

/-- The paths classified as test files. -/
def testFilesOf (paths : List String) : List String := paths.filter isTestFile

/-- The paths classified as source files (everything not a test file). -/
def sourceFilesOf (paths : List String) : List String :=
  paths.filter (fun p => !(isTestFile p))

/-- The coverage-ratio block of `_analyze_testing_coverage`: guarded by
`if source_files:`, it emits one gap of severity `high` when
`len(test_files)/len(source_files) < 0.3` (the exact rational is built with
`mkRat` so that the comparison is executable). -/
def ratioGapsOf (paths : List String) : List TestingGap :=
  if (sourceFilesOf paths).length ≠ 0 then
    if Rat.blt (mkRat ((testFilesOf paths).length : ℤ) ((sourceFilesOf paths).length))
        (mkRat 3 10) then
      [TestingGap.lowCoverage "high" (testFilesOf paths).length (sourceFilesOf paths).length]
    else []
  else []

/-- The missing-test loop of `_analyze_testing_coverage`: one `medium` gap
for each source file whose stem occurs in no test file path. -/
def missingTestGapsOf (paths : List String) : List TestingGap :=
  (sourceFilesOf paths).flatMap (fun src =>
    if (testFilesOf paths).any (fun t =>
        containsSub (toLowerChars (pathStem src)) (toLowerChars t.data)) then []
    else [TestingGap.missingTests "medium" src])

/-- Embedding of `_analyze_testing_coverage` (comprehensive_scanner.py,
lines 876-917); the two blocks append to one issue list in this order. -/
def analyzeTestingCoverage (paths : List String) : List TestingGap :=
  ratioGapsOf paths ++ missingTestGapsOf paths

/-- Recognizes the coverage-ratio gap. -/
def isRatioGap : TestingGap → Bool
  | .lowCoverage _ _ _ => true
  | .missingTests _ _ => false

/-- C8 counterexample: one source file and no test files gives ratio
0 < 0.3, and the single emitted low-coverage gap has severity `high`, not
`medium` as claimed. -/
theorem testing_coverage_severity_counterexample :
    (analyzeTestingCoverage ["a.py"]).filter isRatioGap
      = [TestingGap.lowCoverage "high" 0 1] ∧ "high" ≠ "medium" :=
  ⟨by decide, by decide⟩

/-- The missing-test loop never emits a coverage-ratio gap. -/
theorem missingTestGapsOf_no_ratio (paths : List String) :
    (missingTestGapsOf paths).filter isRatioGap = [] := by
  rw [List.filter_eq_nil_iff]
  intro x hx
  unfold missingTestGapsOf at hx
  obtain ⟨src, _, hmem⟩ := List.mem_flatMap.mp hx
  by_cases hc : (testFilesOf paths).any (fun t =>
      containsSub (toLowerChars (pathStem src)) (toLowerChars t.data)) = true
  · rw [if_pos hc] at hmem
    exact absurd hmem (List.not_mem_nil x)
  · rw [if_neg hc] at hmem
    rw [List.mem_singleton.mp hmem]
    simp [isRatioGap]

/-- C8 (amended): when `source_count > 0` and `test_count / source_count <
0.3`, testing-gap analysis emits exactly one low-coverage gap, of severity
`high` (not `medium`), citing both counts; when `source_count = 0` no
coverage-ratio gap is emitted and no division by zero occurs. -/
theorem testing_coverage_ratio_gap (paths : List String) :
    (0 < (sourceFilesOf paths).length →
      ((testFilesOf paths).length : ℚ) / ((sourceFilesOf paths).length : ℚ) < 3/10 →
      (analyzeTestingCoverage paths).filter isRatioGap
        = [TestingGap.lowCoverage "high" (testFilesOf paths).length
            (sourceFilesOf paths).length]) ∧
    ((sourceFilesOf paths).length = 0 →
      (analyzeTestingCoverage paths).filter isRatioGap = []) := by
  constructor
  · intro hpos hlt
    unfold analyzeTestingCoverage
    rw [List.filter_append, missingTestGapsOf_no_ratio, List.append_nil]
    unfold ratioGapsOf
    rw [if_pos hpos.ne']
    have hblt : mkRat ((testFilesOf paths).length : ℤ) ((sourceFilesOf paths).length)
        < mkRat 3 10 := by
      rw [Rat.mkRat_eq_div, Rat.mkRat_eq_div]
      push_cast
      exact_mod_cast hlt
    have hblt2 : Rat.blt (mkRat ((testFilesOf paths).length : ℤ)
        ((sourceFilesOf paths).length)) (mkRat 3 10) = true := hblt
    rw [if_pos hblt2]
    rfl
  · intro h0
    unfold analyzeTestingCoverage
    rw [List.filter_append, missingTestGapsOf_no_ratio, List.append_nil]
    unfold ratioGapsOf
    rw [if_neg (not_not_intro h0)]
    rfl

/-- Witness for `testing_coverage_ratio_gap` at the one-source-file
input. -/
theorem testing_coverage_ratio_gap_witness :
    (analyzeTestingCoverage ["a.py"]).filter isRatioGap
      = [TestingGap.lowCoverage "high" (testFilesOf ["a.py"]).length
          (sourceFilesOf ["a.py"]).length] :=
  (testing_coverage_ratio_gap ["a.py"]).1 (by decide)
    (by rw [show (testFilesOf ["a.py"]).length = 0 from by decide,
            show (sourceFilesOf ["a.py"]).length = 1 from by decide]
        norm_num)

/-- `path[path.index(node):]`: the suffix of `path` from the first
occurrence of `node` (used when a cycle is closed). -/
def dropFromFirst (x : String) : List String → List String
  | [] => []
  | y :: ys => if y = x then y :: ys else dropFromFirst x ys

/-- Embedding of the inner `dfs` of `_detect_circular_dependencies`
(comprehensive_scanner.py, lines 845-874).  The mutable `path` list and
`visited` set of the source become explicit arguments; `visited` threads
through the neighbour loop and `path` is restored on return exactly as the
`append`/`pop` pair does.  The recursion is fuel-bounded; any fuel larger
than the number of nodes reproduces the Python recursion, which always
terminates because each level either stops or inserts a new node into
`visited`. -/
def dfsCycles (rel : List (String × List String)) :
    ℕ → String → List String → List String → List (List String) × List String
  | 0, _, _, visited => ([], visited)
  | fuel + 1, node, path, visited =>
    if path.contains node then
      ([dropFromFirst node path ++ [node]], visited)
    else if visited.contains node then
      ([], visited)
    else
      ((rel.lookup node).getD []).foldl
        (fun acc nb =>
          let r := dfsCycles rel fuel nb (path ++ [node]) acc.2
          (acc.1 ++ r.1, r.2))
        ([], visited ++ [node])

/-- Fuel that strictly dominates every possible recursion depth of the
source's `dfs` (one level per distinct node, plus one). -/
def dfsFuel (rel : List (String × List String)) : ℕ :=
  rel.length + (rel.map (fun kv => kv.2.length)).sum + 1

/-- Embedding of `_detect_circular_dependencies`: restart a DFS from every
not-yet-visited key of the relationships dictionary, in insertion order. -/
def detectCircularDependencies (rel : List (String × List String)) : List (List String) :=
  (rel.foldl
    (fun acc kv =>
      if acc.2.contains kv.1 then acc
      else
        let r := dfsCycles rel (dfsFuel rel) kv.1 [] acc.2
        (acc.1 ++ r.1, r.2))
    ([], [])).1

/-- The three-node relationship graph A->B, B->C, C->A. -/
def threeCycleGraph : List (String × List String) :=
  [("A", ["B"]), ("B", ["C"]), ("C", ["A"])]

/-- C6: on the graph A->B->C->A cycle detection returns exactly the one
cycle [A, B, C, A]: the three nodes in traversal order, no repetition
except the closing edge back to the start. -/
theorem cycle_detection_three_cycle :
    detectCircularDependencies threeCycleGraph = [["A", "B", "C", "A"]] ∧
    ["A", "B", "C", "A"].dropLast.Nodup ∧
    ["A", "B", "C", "A"].getLast? = some "A" :=
  ⟨by decide, by decide, by decide⟩

/-- The duplicate-block dictionary of `_find_duplicate_blocks`; the
`lines1`/`lines2` range strings are kept as their numeric endpoints,
`i+1`-`i+block_size` and `j+1`-`j+block_size`. -/
structure DuplicateBlock where
  file1 : String
  file2 : String
  start1 : ℕ
  end1 : ℕ
  start2 : ℕ
  end2 : ℕ
  duplicateLines : ℕ
  similarity : ℚ
deriving DecidableEq, Repr

/-- `min_block_size = 5` of `_find_duplicate_blocks`. -/
def minBlockSize : ℕ := 5

/-- The inner while loop of `_find_duplicate_blocks`: extend the match run
while both lines exist, strip-compare equal, and are non-blank.  Reading
out of bounds yields `[]`, which fails the non-blank test exactly where the
Python bounds checks stop the loop.  Fuel-bounded; fuel `len(lines1) + 1`
dominates every possible run length. -/
def blockRunAux (lines1 lines2 : List (List Char)) : ℕ → ℕ → ℕ → ℕ
  | 0, _, _ => 0
  | fuel + 1, i, j =>
    if pyStrip (lines1.getD i []) = pyStrip (lines2.getD j [])
        ∧ pyStrip (lines1.getD i []) ≠ [] then
      blockRunAux lines1 lines2 fuel (i + 1) (j + 1) + 1
    else 0

/-- The matched run length at anchor `(i, j)`. -/
def blockRun (lines1 lines2 : List (List Char)) (i j : ℕ) : ℕ :=
  blockRunAux lines1 lines2 (lines1.length + 1) i j

/-- Embedding of `_find_duplicate_blocks` (comprehensive_scanner.py, lines
786-814) on pre-split line lists: every anchor pair `(i, j)` with
`i < len(lines1) - 5` and `j < len(lines2) - 5` is scanned, and each run of
length at least 5 emits one block; the source has no anchor skipping. -/
def findDuplicateBlocksLines (lines1 lines2 : List (List Char))
    (file1 file2 : String) : List DuplicateBlock :=
  (List.range (lines1.length - minBlockSize)).flatMap (fun i =>
    (List.range (lines2.length - minBlockSize)).flatMap (fun j =>
      if minBlockSize ≤ blockRun lines1 lines2 i j then
        [{ file1 := file1, file2 := file2,
           start1 := i + 1, end1 := i + blockRun lines1 lines2 i j,
           start2 := j + 1, end2 := j + blockRun lines1 lines2 i j,
           duplicateLines := blockRun lines1 lines2 i j, similarity := 1 }]
      else []))

/-- `_find_duplicate_blocks` on raw contents (`content.split('\n')`). -/
def findDuplicateBlocks (content1 content2 file1 file2 : String) : List DuplicateBlock :=
  findDuplicateBlocksLines (splitLines content1.data) (splitLines content2.data)
    file1 file2

/-- First of two files whose lines 1-19 are identical, pairwise distinct
and non-blank, differing at line 20. -/
def dupContentA : String :=
  "a\nb\nc\nd\ne\nf\ng\nh\ni\nj\nk\nl\nm\nn\no\np\nq\nr\ns\nt"

/-- Second of the two files: same first 19 lines, different line 20. -/
def dupContentB : String :=
  "a\nb\nc\nd\ne\nf\ng\nh\ni\nj\nk\nl\nm\nn\no\np\nq\nr\ns\nu"

/-- C5 counterexample: on two files with identical lines 1-19 and a
differing line 20, the detector reports 15 blocks, not exactly one - the
source never skips past a reported match, so every later anchor (t, t)
with run length 19 - t at least 5 reports again. -/
theorem duplicate_blocks_counterexample :
    (findDuplicateBlocks dupContentA dupContentB "f1.py" "f2.py").length = 15 ∧
    (15 : ℕ) ≠ 1 :=
  ⟨by decide, by decide⟩

/-- C5 (amended): on such a pair the detector reports one block per
diagonal anchor (t, t) for t = 0..14: the block at anchor 0 has length 19
and starts at line 1 in both files, and each following anchor repeats the
overlapping suffix, of lengths 18 down to 5, all ending at line 19. -/
theorem duplicate_blocks_overlapping_reports :
    findDuplicateBlocks dupContentA dupContentB "f1.py" "f2.py"
      = (List.range 15).map (fun t =>
          { file1 := "f1.py", file2 := "f2.py",
            start1 := t + 1, end1 := 19, start2 := t + 1, end2 := 19,
            duplicateLines := 19 - t, similarity := 1 }) := by
  decide

/-- `charListLt` agrees with the standard lexicographic order on char
lists (the order underlying `<` on `String`, which is Python's string
comparison by code points). -/
theorem charListLt_iff (l1 l2 : List Char) : charListLt l1 l2 = true ↔ List.lt l1 l2 := by
  induction l1 generalizing l2 with
  | nil =>
    cases l2 with
    | nil =>
      constructor
      · intro h; exact absurd h (by decide)
      · intro h; cases h
    | cons b bs =>
      constructor
      · intro _; exact List.lt.nil b bs
      · intro _; rfl
  | cons a as ih =>
    cases l2 with
    | nil =>
      constructor
      · intro h
        rw [show charListLt (a :: as) [] = false from rfl] at h
        exact Bool.noConfusion h
      · intro h; cases h
    | cons b bs =>
      unfold charListLt
      by_cases hab : a < b
      · rw [if_pos hab]
        exact ⟨fun _ => List.lt.head as bs hab, fun _ => rfl⟩
      · rw [if_neg hab]
        by_cases hba : b < a
        · rw [if_pos hba]
          constructor
          · intro h; exact Bool.noConfusion h
          · intro h
            cases h with
            | head _ _ hl => exact absurd hl hab
            | tail h1 h2 h3 => exact absurd hba h2
        · rw [if_neg hba, ih bs]
          constructor
          · intro h; exact List.lt.tail hab hba h
          · intro h
            cases h with
            | head _ _ hl => exact absurd hl hab
            | tail h1 h2 h3 => exact h3

/-- Embedding of `_detect_codebase_duplicates` (comprehensive_scanner.py,
lines 761-784): the files as an (insertion-ordered) list of path-content
pairs; every ordered pair is visited and skipped unless
`file1 < file2` (the `if file1 >= file2: continue` guard). -/
def detectCodebaseDuplicates (files : List (String × String)) : List DuplicateBlock :=
  files.flatMap (fun f1 =>
    files.flatMap (fun f2 =>
      if charListLt f1.1.data f2.1.data then
        findDuplicateBlocks f1.2 f2.2 f1.1 f2.1
      else []))

/-- Every block emitted by `_find_duplicate_blocks` carries exactly the two
file names it was called with. -/
theorem findDuplicateBlocksLines_files (l1 l2 : List (List Char)) (f1 f2 : String)
    (b : DuplicateBlock) (hb : b ∈ findDuplicateBlocksLines l1 l2 f1 f2) :
    b.file1 = f1 ∧ b.file2 = f2 := by
  unfold findDuplicateBlocksLines at hb
  obtain ⟨i, _, hb⟩ := List.mem_flatMap.mp hb
  obtain ⟨j, _, hb⟩ := List.mem_flatMap.mp hb
  split at hb
  · rw [List.mem_singleton.mp hb]
    exact ⟨rfl, rfl⟩
  · exact absurd hb (List.not_mem_nil b)

/-- C10: every duplicate block emitted across the codebase has its first
file path strictly lexicographically smaller than its second; hence no
file is compared with itself and no unordered pair is reported twice. -/
theorem codebase_duplicates_ordered (files : List (String × String))
    (b : DuplicateBlock) (hb : b ∈ detectCodebaseDuplicates files) :
    b.file1 < b.file2 := by
  unfold detectCodebaseDuplicates at hb
  obtain ⟨p1, _, hb⟩ := List.mem_flatMap.mp hb
  obtain ⟨p2, _, hb⟩ := List.mem_flatMap.mp hb
  split at hb
  case isTrue h =>
    obtain ⟨h1, h2⟩ := findDuplicateBlocksLines_files _ _ _ _ b hb
    rw [h1, h2, String.lt_iff_toList_lt]
    exact (List.lt_iff_lex_lt _ _).mp ((charListLt_iff _ _).mp h)
  case isFalse => exact absurd hb (List.not_mem_nil b)

/-- Content of six identical non-blank lines, enough for one duplicate
block. -/
def dupSixLines : String := "x\nx\nx\nx\nx\nx"

/-- Two distinct files sharing six identical lines. -/
def dupPairFiles : List (String × String) :=
  [("a.py", dupSixLines), ("b.py", dupSixLines)]

/-- The single block emitted on `dupPairFiles`. -/
def dupWitnessBlock : DuplicateBlock :=
  { file1 := "a.py", file2 := "b.py", start1 := 1, end1 := 6,
    start2 := 1, end2 := 6, duplicateLines := 6, similarity := 1 }

/-- Witness for `codebase_duplicates_ordered` at a two-file codebase that
does emit a block. -/
theorem codebase_duplicates_ordered_witness :
    dupWitnessBlock.file1 < dupWitnessBlock.file2 :=
  codebase_duplicates_ordered dupPairFiles dupWitnessBlock (by decide)
